import Mathlib

-- Verification of the ai-code-review-action pipeline (src/index.js).
--
-- The JavaScript source is shallowly embedded as executable Lean functions.
-- External collaborators (the GitHub REST API, the generative-language HTTP
-- endpoint, the markdown renderer) are modelled as oracle functions carried
-- in an `Env` record; the observable behaviour of a run is the list of
-- effects it performs (fetches, generative calls, PR comments, emails, logs)
-- together with the final success/failure status.
--
-- JavaScript-specific semantics captured here:
--   * `core.getInput` returns the empty string for a missing input, and a
--     required input equal to the empty string throws.
--   * a JS string is falsy exactly when it is empty; `undefined` is falsy.
--   * reading a property of `undefined` throws a TypeError (the quotes of
--     the Node message around the property name are elided, since no claim
--     inspects the exact message text).

namespace AICodeReview

-- ===== String helpers (explicit List Char versions of the JS operations,
-- ===== kept kernel-executable) =====

/-- JS `Array.prototype.join(sep)` on a list of strings. -/
def joinSep (sep : String) : List String → String
  | [] => ""
  | [x] => x
  | x :: xs => x ++ sep ++ joinSep sep xs

/-- Plain concatenation of a list of strings (repeated `+=`). -/
def strJoin : List String → String
  | [] => ""
  | x :: xs => x ++ strJoin xs

/-- JS `String.prototype.toLowerCase` (ASCII letters, which is all the
pipeline compares). -/
def lowerStr (s : String) : String := ⟨s.data.map Char.toLower⟩

/-- JS `String.prototype.toUpperCase` (ASCII letters). -/
def upperStr (s : String) : String := ⟨s.data.map Char.toUpper⟩

def isWsChar (c : Char) : Bool := c == ' ' || c == '\t' || c == '\n' || c == '\r'

/-- JS `String.prototype.trim`. -/
def trimStr (s : String) : String :=
  ⟨((s.data.dropWhile isWsChar).reverse.dropWhile isWsChar).reverse⟩

def substrAt (s pat : List Char) (i : Nat) : Bool :=
  ((s.drop i).take pat.length) == pat

/-- JS `String.prototype.includes`. -/
def containsSub (s pat : String) : Bool :=
  (List.range (s.length + 1)).any (fun i => substrAt s.data pat.data i)

/-- Number of positions of `s` at which `pat` occurs (used to count the
`Commit:`-annotated blocks of a produced diff text). -/
def countOcc (s pat : String) : Nat :=
  ((List.range (s.length + 1)).filter (fun i => substrAt s.data pat.data i)).length

/-- Truthiness of a JS value that is either a string or `undefined`. -/
def truthy : Option String → Bool
  | none => false
  | some s => s != ""

-- ===== Data model (from the GitHub payload / REST shapes the script reads) =====

/-- One entry of `commitData.files` as returned by `octokit.rest.repos.getCommit`. -/
structure FileChange where
  filename : String
  patch : String
deriving DecidableEq

/-- One entry of a push payload `commits` array (only `id` is read). -/
structure PayloadCommit where
  id : String
deriving DecidableEq

structure User where
  login : String
deriving DecidableEq

structure PRPayload where
  number : Nat
  user : User
deriving DecidableEq

structure Pusher where
  name : String
deriving DecidableEq

/-- The fields of `github.context.payload` that the script reads.  Each may be
absent (`undefined`) depending on the triggering event. -/
structure Payload where
  pull_request : Option PRPayload
  pusher : Option Pusher
  commits : Option (List PayloadCommit)
deriving DecidableEq

-- ===== Push diff collectors (src/index.js lines 24-79) =====
-- `fetch` models `octokit.rest.repos.getCommit(ref).files` for the case in
-- which every fetch succeeds; the fallible variant used by `run` is below.

/-- The per-file template literal of lines 55 and 75:
`Commit: <id>\nFile: <filename>\n<patch>\n`. -/
def fileBlock (cid : String) (f : FileChange) : String :=
  "Commit: " ++ cid ++ "\nFile: " ++ f.filename ++ "\n" ++ f.patch ++ "\n"

/-- The `commitData.files.map(...).join('\n')` sub-expression of line 75. -/
def commitSegment (fetch : String → List FileChange) (c : PayloadCommit) : String :=
  joinSep "\n" ((fetch c.id).map (fileBlock c.id))

/-- `getPushDiff` (lines 66-79): `diffs += files.map(block).join('\n')`
for each commit in payload order. -/
def getPushDiff (fetch : String → List FileChange) (commits : List PayloadCommit) : String :=
  commits.foldl (fun diffs c => diffs ++ commitSegment fetch c) ""

/-- Insertion into `latestCommitsForFiles` (line 37): JS object assignment
keeps the position of an existing string key and appends a new key at the
end, which is also the `Object.entries` enumeration order. -/
def upsertLatest (m : List (String × String)) (k v : String) : List (String × String) :=
  if m.any (fun p => p.1 == k) then
    m.map (fun p => if p.1 == k then (p.1, v) else p)
  else m ++ [(k, v)]

/-- `getLatestPushDiff` (lines 24-64).  Pass 1 (lines 28-39) maps each
filename to the last commit that touched it; pass 2 (lines 41-61) walks the
entries, and for an entry whose commit is not yet in `processedCommits`
appends the blocks of that commit's files matching the entry's filename
(plain `+=`, no separator), then marks the commit processed. -/
def getLatestPushDiff (fetch : String → List FileChange) (commits : List PayloadCommit) : String :=
  let latest := commits.foldl
    (fun m c => (fetch c.id).foldl (fun m2 f => upsertLatest m2 f.filename c.id) m) []
  (latest.foldl
    (fun (st : List String × String) e =>
      if st.1.contains e.2 then st
      else (st.1 ++ [e.2],
            st.2 ++ strJoin (((fetch e.2).filter (fun f => f.filename == e.1)).map
              (fun f => fileBlock e.2 f))))
    ([], "")).2

/-- The list of per-file blocks that `getPushDiff` emits, in emission order. -/
def pushDiffBlocks (fetch : String → List FileChange) (commits : List PayloadCommit) :
    List String :=
  commits.flatMap (fun c => (fetch c.id).map (fileBlock c.id))

-- ===== Observable effects and the effect-collecting result monad =====

/-- One observable interaction of a run with its collaborators. -/
inductive Effect where
  | fetchPr (prNumber : Nat)
  | fetchCommit (commitId : String)
  | genCall (diff : String)
  | prComment (prNumber : Nat) (body : String)
  | emailSent (subject : String) (body : String)
  | log (message : String)
deriving DecidableEq

/-- Result of an `async` fragment of the script: the effects it performed,
and either its value or the message of the exception it threw. -/
structure Out (α : Type) where
  effects : List Effect
  result : Except String α

def Out.pure {α : Type} (a : α) : Out α := ⟨[], Except.ok a⟩

/-- Sequencing: effects accumulate; a thrown exception skips the rest. -/
def Out.bind {α β : Type} (o : Out α) (f : α → Out β) : Out β :=
  match o.result with
  | Except.error e => ⟨o.effects, Except.error e⟩
  | Except.ok a => ⟨o.effects ++ (f a).effects, (f a).result⟩

def emit (e : Effect) : Out Unit := ⟨[e], Except.ok ()⟩

def throwErr {α : Type} (msg : String) : Out α := ⟨[], Except.error msg⟩

/-- Reading a property of a possibly-`undefined` JS value: throws a
TypeError when the value is absent. -/
def require {α : Type} (o : Option α) (prop : String) : Out α :=
  match o with
  | some a => Out.pure a
  | none => throwErr ("Cannot read properties of undefined (reading " ++ prop ++ ")")

-- ===== Generative-language response shape (spec section 6) =====

structure GenPart where
  text : Option String
deriving DecidableEq

structure GenContent where
  parts : Option (List GenPart)
deriving DecidableEq

structure GenCandidate where
  content : Option GenContent
deriving DecidableEq

structure GenResponse where
  candidates : Option (List GenCandidate)
deriving DecidableEq

/-- The optional chain of line 134:
`response?.data?.candidates?.[0]?.content?.parts?.[0]?.text`. -/
def extractText (r : GenResponse) : Option String :=
  ((((r.candidates.bind List.head?).bind GenCandidate.content).bind
      GenContent.parts).bind List.head?).bind GenPart.text

/-- The `?? 'Error or no response!'` fallback of line 134. -/
def noResponseSentinel : String := "Error or no response!"

def reviewOfResponse (r : GenResponse) : String :=
  (extractText r).getD noResponseSentinel

/-- The instructional prompt template of lines 86-103 (template-literal
whitespace approximated; apostrophes written as escapes). -/
def promptFor (diff : String) : String :=
  "\n    You are developing an automated code review tool for the Engineering department of a technology/software company. \n    Given a code snippet or file, analyze the code\x27s quality and provide suggestions for improvement. Identify common \n    issues such as code smells, anti-patterns, potential bugs, performance bottlenecks, security vulnerabilities, \n    inefficient database queries, frequent or unnecessary I/O operations, or resource-intensive loops, complex or \n    convoluted code structures, excessive code coupling, lack of modularity, poor separation of concerns, architectural \n    inconsistencies, or dependencies that hinder unit testing, or code that is hard to understand and maintain. \n    \n    Offer actionable recommendations to address these issues and improve the overall quality of the code. Please start \n    your suggestions with file name(s) including line numbers with each suggestion where possible.\n    \n    Rules you must follow for your answer:\n\t\t- Please don\x27t include files containing sensitive information such as passwords in your review.\n\t\t- Instead of showing actual passwords in your review, mask them.\n    \n    Here is code you need to review: \n    " ++ diff ++ "\n    "

-- ===== Email transport (sendEmail, lines 182-223) =====

/-- The email inputs gathered at lines 233-242.  `core.getInput` yields the
empty string for a missing input.  `from` is a Lean keyword, hence
`emailFrom`. -/
structure EmailConfig where
  host : String
  port : String
  secure : Bool
  user : String
  pass : String
  emailFrom : String
  toAddr : String
  bcc : String
deriving DecidableEq

def emailConfigOf (inputs : String → String) : EmailConfig :=
  { host := inputs "email-host"
    port := inputs "email-port"
    secure := inputs "email-secure" == "true"
    user := inputs "email-user"
    pass := inputs "email-pass"
    emailFrom := inputs "email-from"
    toAddr := inputs "email-to"
    bcc := inputs "email-bcc" }

inductive EmailOutcome where
  | skippedShortBody
  | noConfig
  | sent (subject : String) (body : String)
deriving DecidableEq

/-- The diagnostic of line 189 (typo as in the source). -/
def noCredsMsg : String := "No email credentials confirued!"

/-- `sendEmail` (lines 182-223): bodies of length at most 10 are dropped
silently (lines 184-186); a missing host or recipient logs a diagnostic and
does nothing else (lines 188-190); otherwise the mail is handed to the
transport, whose own failures are logged and swallowed (lines 215-221). -/
def sendEmail (subject : String) (body : String) (cfg : EmailConfig) : EmailOutcome :=
  if body.length ≤ 10 then EmailOutcome.skippedShortBody
  else if cfg.host == "" || cfg.toAddr == "" then EmailOutcome.noConfig
  else EmailOutcome.sent subject body

def sendEmailOut (subject : String) (body : String) (cfg : EmailConfig) : Out Unit :=
  match sendEmail subject body cfg with
  | EmailOutcome.skippedShortBody => Out.pure ()
  | EmailOutcome.noConfig => emit (Effect.log noCredsMsg)
  | EmailOutcome.sent s b => emit (Effect.emailSent s b)

-- ===== The run environment =====

/-- Everything `run` reads from its surroundings: the triggering event, the
action inputs, and the three remote collaborators.  `repoName` is
`github.context.repo.repo`; the owner only ever travels into API calls. -/
structure Env where
  eventName : String
  payload : Payload
  repoName : String
  inputs : String → String
  pullsGet : Nat → Except String String
  getCommit : String → Except String (List FileChange)
  genApi : String → Except String GenResponse
  makeHtml : String → String

/-- `getPrDiff` (lines 12-21): one fetch; a failed fetch throws. -/
def getPrDiffOut (env : Env) (prNumber : Nat) : Out String :=
  Out.bind (emit (Effect.fetchPr prNumber)) (fun _ =>
    match env.pullsGet prNumber with
    | Except.ok d => Out.pure d
    | Except.error e => throwErr e)

/-- The commit loop of `getPushDiff` (lines 68-76) with fallible fetches:
each commit is fetched in order and the first failure aborts the pipeline. -/
def pushDiffGo (env : Env) : List PayloadCommit → String → Out String
  | [], acc => Out.pure acc
  | c :: rest, acc =>
    Out.bind (emit (Effect.fetchCommit c.id)) (fun _ =>
      match env.getCommit c.id with
      | Except.error e => throwErr e
      | Except.ok files =>
        pushDiffGo env rest (acc ++ joinSep "\n" (files.map (fileBlock c.id))))

def getPushDiffOut (env : Env) (commits : List PayloadCommit) : Out String :=
  pushDiffGo env commits ""

/-- `getReview` (lines 81-139): the HTTP call is attempted; on success the
text is extracted with the sentinel fallback; the catch block (lines
136-138) only logs, so an errored call makes the function return
`undefined` (`none`). -/
def getReviewOut (env : Env) (diff : String) : Out (Option String) :=
  Out.bind (emit (Effect.genCall diff)) (fun _ =>
    match env.genApi (promptFor diff) with
    | Except.error _ => Out.pure none
    | Except.ok resp => Out.pure (some (reviewOfResponse resp)))

/-- `commentOnPr` (lines 141-149).  Defined because the spec talks about it;
`run` never calls it — its only call site (line 254) is commented out. -/
def commentOnPr (prNumber : Nat) (explanation : String) : Out Unit :=
  emit (Effect.prComment prNumber explanation)

-- ===== run (lines 225-296) =====

/-- `core.getInput(name, { required: true })` (lines 227-228). -/
def requiredInput (inputs : String → String) (name : String) : Out String :=
  if inputs name == "" then throwErr ("Input required and not supplied: " ++ name)
  else Out.pure (inputs name)

/-- Lines 261-262: `userName = payload.pusher.name` and the
`userName || payload.pull_request.user.login` fallback.  On a payload with
no `pull_request` object the fallback read throws. -/
def resolvePushUserName (p : Payload) : Out String :=
  Out.bind (require p.pusher "name") (fun pu =>
    if pu.name == "" then
      Out.bind (require p.pull_request "user") (fun pr => Out.pure pr.user.login)
    else Out.pure pu.name)

/-- The pull-request branch (lines 248-257): fetch the PR diff, request the
review, and produce the email subject and body.  The `commentOnPr` call of
line 254 is commented out in the source and therefore absent here. -/
def prFlow (env : Env) : Out (String × Option String) :=
  Out.bind (require env.payload.pull_request "number") (fun pr =>
  Out.bind (getPrDiffOut env pr.number) (fun diff =>
  Out.bind (getReviewOut env diff) (fun explanation =>
    Out.pure ("Code Review: Pull Request #" ++ toString pr.number ++ " in "
        ++ upperStr env.repoName ++ " By " ++ pr.user.login,
      explanation))))

/-- The push branch (lines 259-279): resolve the acting user name, then
short-circuit on an absent or empty `commits` array (lines 264-267),
otherwise collect the push diff and request the review.  `none` marks the
early `return`. -/
def pushFlow (env : Env) : Out (Option (String × Option String)) :=
  let commits := env.payload.commits
  Out.bind (resolvePushUserName env.payload) (fun userName =>
    if commits.isNone || (commits.getD []).length == 0 then
      Out.bind (emit (Effect.log "No commits found in push event.")) (fun _ =>
        Out.pure none)
    else
      Out.bind (getPushDiffOut env (commits.getD [])) (fun diff =>
      Out.bind (getReviewOut env diff) (fun explanation =>
        Out.pure (some ("Code Review: Push Event in " ++ upperStr env.repoName
            ++ " By " ++ userName,
          explanation)))))

/-- Lines 281-288: email dispatch.  The guard requires a truthy body whose
lowercased text does not contain `"no response"`; the body is then rendered
to HTML and trimmed, and sent only when still non-empty. -/
def dispatchEmail (env : Env) (subject : String) (body : Option String)
    (cfg : EmailConfig) : Out Unit :=
  if truthy body && !(containsSub (lowerStr (body.getD "")) "no response") then
    let html := trimStr (env.makeHtml (body.getD ""))
    if html != "" then sendEmailOut subject html cfg else Out.pure ()
  else Out.pure ()

/-- The body of the `try` block of `run` (lines 226-288). -/
def runBody (env : Env) : Out Unit :=
  Out.bind (requiredInput env.inputs "github-token") (fun _ =>
  Out.bind (requiredInput env.inputs "gemini-api-key") (fun _ =>
    let cfg := emailConfigOf env.inputs
    if env.eventName == "pull_request" then
      Out.bind (prFlow env) (fun sb => dispatchEmail env sb.1 sb.2 cfg)
    else if env.eventName == "push" then
      Out.bind (pushFlow env) (fun r =>
        match r with
        | none => Out.pure ()
        | some sb => dispatchEmail env sb.1 sb.2 cfg)
    else
      dispatchEmail env "" (some "") cfg))

/-- Outcome of one invocation: the effects performed, and `some msg` when
the catch block (lines 290-292) called `core.setFailed(msg)`. -/
structure RunResult where
  effects : List Effect
  failure : Option String
deriving DecidableEq

/-- `run` (lines 225-293): the catch-all converts an exception into a
failed-run status carrying the error message. -/
def run (env : Env) : RunResult :=
  match (runBody env).result with
  | Except.ok _ => ⟨(runBody env).effects, none⟩
  | Except.error msg => ⟨(runBody env).effects, some msg⟩

-- ===== Observation predicates =====

def isEmailEff : Effect → Bool
  | Effect.emailSent _ _ => true
  | _ => false

def isCommentEff : Effect → Bool
  | Effect.prComment _ _ => true
  | _ => false

def isGenEff : Effect → Bool
  | Effect.genCall _ => true
  | _ => false

def isFetchEff : Effect → Bool
  | Effect.fetchPr _ => true
  | Effect.fetchCommit _ => true
  | _ => false

def sentAnyEmail (r : RunResult) : Bool := r.effects.any isEmailEff

def postedAnyComment (r : RunResult) : Bool := r.effects.any isCommentEff

def madeGenCall (r : RunResult) : Bool := r.effects.any isGenEff

def madeAnyFetch (r : RunResult) : Bool := r.effects.any isFetchEff

-- ===== Concrete inputs used by counterexamples and witnesses =====

/-- A push whose single commit `c1` touches the two files `a.js` and `b.js`. -/
def fetchTwoFiles : String → List FileChange :=
  fun cid => if cid == "c1" then [⟨"a.js", "+x"⟩, ⟨"b.js", "+y"⟩] else []

/-- The end-to-end example of the spec: one commit `c1` touching only `a.js`. -/
def fetchOneFile : String → List FileChange :=
  fun cid => if cid == "c1" then [⟨"a.js", "+x"⟩] else []

/-- An input table in which every action input is configured. -/
def allInputs : String → String := fun _ => "x"

/-- A generative response whose extracted text contains the sentinel phrase. -/
def respNoResponse : GenResponse :=
  ⟨some [⟨some ⟨some [⟨some "Sorry, NO RESPONSE was produced."⟩]⟩⟩]⟩

/-- Pull-request event: PR #5 by alice, diff fetch succeeds, the review call
succeeds but its text contains the sentinel phrase; email fully configured. -/
def envC1 : Env :=
  { eventName := "pull_request"
    payload := ⟨some ⟨5, ⟨"alice"⟩⟩, none, none⟩
    repoName := "demo"
    inputs := allInputs
    pullsGet := fun _ => Except.ok "PR DIFF"
    getCommit := fun _ => Except.ok []
    genApi := fun _ => Except.ok respNoResponse
    makeHtml := fun s => s }

/-- Push event whose pusher name is empty and whose payload (as for every
real push event) carries no `pull_request` object. -/
def envC8 : Env :=
  { eventName := "push"
    payload := ⟨none, some ⟨""⟩, some [⟨"c1"⟩]⟩
    repoName := "demo"
    inputs := allInputs
    pullsGet := fun _ => Except.error "nope"
    getCommit := fun _ => Except.ok [⟨"a.js", "+x"⟩]
    genApi := fun _ => Except.error "nope"
    makeHtml := fun s => s }

/-- Email configuration with the host missing and a recipient present. -/
def cfgNoHost : EmailConfig :=
  ⟨"", "587", false, "u", "p", "f@x", "t@x", ""⟩

/-- A minimal environment for exercising `dispatchEmail` on its own. -/
def envPlain : Env :=
  { eventName := "none"
    payload := ⟨none, none, none⟩
    repoName := "r"
    inputs := fun _ => ""
    pullsGet := fun _ => Except.error "e"
    getCommit := fun _ => Except.error "e"
    genApi := fun _ => Except.error "e"
    makeHtml := fun s => s }

/-- A scheduled (neither pull-request nor push) event with required inputs
present. -/
def envSchedule : Env :=
  { eventName := "schedule"
    payload := ⟨none, none, none⟩
    repoName := "demo"
    inputs := allInputs
    pullsGet := fun _ => Except.error "e"
    getCommit := fun _ => Except.error "e"
    genApi := fun _ => Except.error "e"
    makeHtml := fun s => s }

-- ===== Reduction lemmas for the effect monad =====

theorem Out.bind_ok {α β : Type} (effs : List Effect) (a : α) (f : α → Out β) :
    Out.bind ⟨effs, Except.ok a⟩ f = ⟨effs ++ (f a).effects, (f a).result⟩ := rfl

theorem Out.bind_error {α β : Type} (effs : List Effect) (msg : String) (f : α → Out β) :
    Out.bind ⟨effs, Except.error msg⟩ f = ⟨effs, Except.error msg⟩ := rfl

-- ===== Basic string lemmas for the aggregation proofs =====

theorem strAppend_assoc (a b c : String) : (a ++ b) ++ c = a ++ (b ++ c) := by
  obtain ⟨as⟩ := a
  obtain ⟨bs⟩ := b
  obtain ⟨cs⟩ := c
  exact congrArg String.mk (List.append_assoc as bs cs)

theorem strAppend_empty (a : String) : a ++ "" = a := by
  obtain ⟨as⟩ := a
  exact congrArg String.mk (List.append_nil as)

theorem strEmpty_append (a : String) : "" ++ a = a := by
  obtain ⟨as⟩ := a
  rfl

theorem getPushDiff_foldl (fetch : String → List FileChange) (l : List PayloadCommit)
    (acc : String) :
    l.foldl (fun diffs c => diffs ++ commitSegment fetch c) acc
      = acc ++ strJoin (l.map (commitSegment fetch)) := by
  induction l generalizing acc with
  | nil => simp [strJoin, strAppend_empty]
  | cons c t ih =>
    simp only [List.foldl_cons, List.map_cons, strJoin]
    rw [ih, strAppend_assoc]

/-- Shared decomposition: the text produced by `getPushDiff` is the in-order
concatenation of one newline-joined segment per commit. -/
theorem getPushDiff_eq_strJoin (fetch : String → List FileChange)
    (commits : List PayloadCommit) :
    getPushDiff fetch commits = strJoin (commits.map (commitSegment fetch)) := by
  unfold getPushDiff
  rw [getPushDiff_foldl, strEmpty_append]

theorem pushDiffBlocks_length (fetch : String → List FileChange)
    (commits : List PayloadCommit) :
    (pushDiffBlocks fetch commits).length
      = (commits.map (fun c => (fetch c.id).length)).sum := by
  induction commits with
  | nil => rfl
  | cons c t ih =>
    simp only [pushDiffBlocks] at ih
    simp only [pushDiffBlocks, List.flatMap_cons, List.length_append, List.length_map,
      List.map_cons, List.sum_cons]
    rw [ih]

-- ===== C2 =====

/-- C2, counterexample: for the push event with the single commit `c1`
(N = 1) touching two files, the diff text produced by `getPushDiff` contains
two `Commit: `-annotated blocks, not exactly N = 1. -/
theorem C2_counterexample :
    ¬ (countOcc (getPushDiff fetchTwoFiles [⟨"c1"⟩]) "Commit: "
        = ([(⟨"c1"⟩ : PayloadCommit)]).length) := by
  decide

/-- C2 (amended): for every push event the diff text produced by
`getPushDiff` is the concatenation, in commit order, of one segment per
commit, the segment of a commit being its per-file `Commit:`-annotated
blocks joined by a newline; hence the text carries exactly one annotated
block per changed file — the total changed-file count over all commits, not
the commit count N. -/
theorem C2_blocks_per_file (fetch : String → List FileChange)
    (commits : List PayloadCommit) :
    getPushDiff fetch commits = strJoin (commits.map (commitSegment fetch))
      ∧ (pushDiffBlocks fetch commits).length
          = (commits.map (fun c => (fetch c.id).length)).sum := by
  exact ⟨getPushDiff_eq_strJoin fetch commits, pushDiffBlocks_length fetch commits⟩

-- ===== C3 =====

/-- C3, counterexample: within a single commit the per-file blocks are not
plainly concatenated — `join('\n')` inserts an extra newline between the
blocks of `a.js` and `b.js` — so the produced text differs from the plain
block concatenation the claim states. -/
theorem C3_counterexample :
    ¬ (getPushDiff fetchTwoFiles [⟨"c1"⟩]
        = fileBlock "c1" ⟨"a.js", "+x"⟩ ++ fileBlock "c1" ⟨"b.js", "+y"⟩) := by
  decide

/-- C3 (amended): `getPushDiff` builds one block `Commit: <id>\nFile:
<path>\n<patch>\n` per changed file; the blocks of the files of one commit
are joined with a newline separator, and the commit segments are
concatenated in commit order.  In particular the single-commit single-file
example of the spec produces exactly `"Commit: c1\nFile: a.js\n+x\n"`. -/
theorem C3_block_format :
    (∀ (fetch : String → List FileChange) (commits : List PayloadCommit),
        getPushDiff fetch commits = strJoin (commits.map (commitSegment fetch)))
      ∧ getPushDiff fetchOneFile [⟨"c1"⟩] = "Commit: c1\nFile: a.js\n+x\n" := by
  exact ⟨getPushDiff_eq_strJoin, by decide⟩

-- ===== C9 =====

/-- C9, code behaviour at the failing input: under the dedup variant
(`getLatestPushDiff`), for the push whose single commit `c1` touches the two
distinct files `a.js` and `b.js`, the produced text consists of the block
for `a.js` only — `b.js` receives no block at all, because once commit `c1`
is added to `processedCommits` while handling the `a.js` entry, the `b.js`
entry (whose latest commit is the same `c1`) is skipped entirely. -/
theorem C9_dropped_file :
    getLatestPushDiff fetchTwoFiles [⟨"c1"⟩] = "Commit: c1\nFile: a.js\n+x\n"
      ∧ containsSub (getLatestPushDiff fetchTwoFiles [⟨"c1"⟩]) "File: b.js" = false := by
  decide

-- ===== C1 =====

/-- C1, code behaviour at the failing input: in a pull-request run whose
review text contains the sentinel phrase (case-insensitively), with the
email transport fully configured, the email is indeed suppressed — but no
PR comment is posted either, and the run still completes successfully: the
`commentOnPr` call of line 254 is commented out, so `run` performs no
comment effect at all. -/
theorem C1_no_comment_posted :
    containsSub (lowerStr "Sorry, NO RESPONSE was produced.") "no response" = true
      ∧ (emailConfigOf envC1.inputs).host ≠ ""
      ∧ (emailConfigOf envC1.inputs).toAddr ≠ ""
      ∧ sentAnyEmail (run envC1) = false
      ∧ postedAnyComment (run envC1) = false
      ∧ (run envC1).failure = none := by
  decide

-- ===== C4 =====

/-- C4: whenever the nested field `candidates[0].content.parts[0].text` is
missing at any level (the optional chain yields nothing), the review
requester returns the sentinel string `"Error or no response!"`; and the
dispatcher suppresses the email whenever the review text is absent or its
lowercased content contains the phrase `"no response"` (which the sentinel
does). -/
theorem C4_sentinel_and_suppression :
    (∀ r : GenResponse, extractText r = none → reviewOfResponse r = noResponseSentinel)
      ∧ (∀ (env : Env) (subject : String) (body : Option String) (cfg : EmailConfig),
          body = none ∨ containsSub (lowerStr (body.getD "")) "no response" = true →
          (dispatchEmail env subject body cfg).effects.any isEmailEff = false) := by
  constructor
  · intro r h
    unfold reviewOfResponse
    rw [h]
    rfl
  · intro env subject body cfg h
    rcases h with h | h
    · subst h
      rfl
    · unfold dispatchEmail
      rw [h]
      simp [Out.pure]

theorem C4_witness :
    reviewOfResponse ⟨none⟩ = noResponseSentinel
      ∧ (dispatchEmail envPlain "s" (some "Sorry, NO RESPONSE was produced.")
            cfgNoHost).effects.any isEmailEff = false := by
  exact ⟨C4_sentinel_and_suppression.1 ⟨none⟩ rfl,
    C4_sentinel_and_suppression.2 envPlain "s" (some "Sorry, NO RESPONSE was produced.")
      cfgNoHost (Or.inr (by decide))⟩

-- ===== C5 =====

/-- C5: a failing generative-language call is captured at the call site —
the run still performs the call effect, continues with an absent review
result, sends nothing, and completes successfully — while a failing
source-control fetch (of the PR diff, or of a commit in a push) propagates
to the top-level handler, which marks the run failed with the error
message. -/
theorem C5_error_propagation :
    (∀ (pr : PRPayload) (rn d msg : String)
        (gc : String → Except String (List FileChange)) (mk : String → String),
        run (Env.mk "pull_request" ⟨some pr, none, none⟩ rn allInputs
            (fun _ => Except.ok d) gc (fun _ => Except.error msg) mk)
          = ⟨[Effect.fetchPr pr.number, Effect.genCall d], none⟩)
      ∧ (∀ (pr : PRPayload) (rn msg : String)
          (gc : String → Except String (List FileChange))
          (ga : String → Except String GenResponse) (mk : String → String),
          run (Env.mk "pull_request" ⟨some pr, none, none⟩ rn allInputs
              (fun _ => Except.error msg) gc ga mk)
            = ⟨[Effect.fetchPr pr.number], some msg⟩)
      ∧ (∀ (rn msg : String) (pg : Nat → Except String String)
          (ga : String → Except String GenResponse) (mk : String → String),
          run (Env.mk "push" ⟨none, some ⟨"bob"⟩, some [⟨"c1"⟩]⟩ rn allInputs
              pg (fun _ => Except.error msg) ga mk)
            = ⟨[Effect.fetchCommit "c1"], some msg⟩) := by
  exact ⟨fun pr rn d msg gc mk => rfl, fun pr rn msg gc ga mk => rfl,
    fun rn msg pg ga mk => rfl⟩

-- ===== C7 =====

/-- C7, counterexample: with the email host missing, the non-empty body
`"x"` makes `sendEmail` return silently at the length guard of line 184 —
no diagnostic is logged, contrary to the claim that a missing host logs a
diagnostic for any non-empty body. -/
theorem C7_counterexample :
    ("x" : String) ≠ "" ∧ cfgNoHost.host = ""
      ∧ (sendEmailOut "s" "x" cfgNoHost).effects = []
      ∧ Effect.log noCredsMsg ∉ (sendEmailOut "s" "x" cfgNoHost).effects := by
  refine ⟨by decide, rfl, rfl, by decide⟩

/-- C7 (amended): for every non-empty body, a missing email host or
recipient makes `sendEmail` a no-op that returns without throwing and never
sends; the diagnostic log is emitted exactly when the body is longer than
the 10-character noise threshold (shorter bodies return silently before the
configuration check). -/
theorem C7_missing_config_noop (subject body : String) (cfg : EmailConfig)
    (_hb : body ≠ "") (hcfg : cfg.host = "" ∨ cfg.toAddr = "") :
    (sendEmailOut subject body cfg).result = Except.ok ()
      ∧ (sendEmailOut subject body cfg).effects.any isEmailEff = false
      ∧ (Effect.log noCredsMsg ∈ (sendEmailOut subject body cfg).effects
          ↔ 10 < body.length) := by
  unfold sendEmailOut sendEmail
  by_cases hlen : body.length ≤ 10
  · refine ⟨by simp [hlen, Out.pure], by simp [hlen, Out.pure], ?_⟩
    simp only [hlen, if_true, Out.pure]
    simp only [List.not_mem_nil, false_iff]
    omega
  · have hcond : (cfg.host == "" || cfg.toAddr == "") = true := by
      rcases hcfg with h | h <;> simp [h]
    refine ⟨by simp [hlen, hcond, emit], by simp [hlen, hcond, emit, isEmailEff], ?_⟩
    simp only [hlen, if_false, hcond, if_true, emit]
    simp only [List.mem_singleton, true_iff]
    omega

theorem C7_witness :
    (sendEmailOut "s" "twelve chars" cfgNoHost).result = Except.ok ()
      ∧ (sendEmailOut "s" "twelve chars" cfgNoHost).effects.any isEmailEff = false
      ∧ (Effect.log noCredsMsg ∈ (sendEmailOut "s" "twelve chars" cfgNoHost).effects
          ↔ 10 < ("twelve chars" : String).length) := by
  exact C7_missing_config_noop "s" "twelve chars" cfgNoHost (by decide) (Or.inl rfl)

-- ===== C8 =====

/-- C8, counterexample: for a push event whose pusher name is empty, the
payload of a push event carries no `pull_request` object, so the fallback
read of line 262 throws and the run is marked failed — the name is not left
blank and the run does not continue. -/
theorem C8_counterexample :
    (run envC8).failure = some "Cannot read properties of undefined (reading user)" := by
  decide

/-- C8 (amended): the acting user name for a push event falls back from the
pusher name to the PR-author login only when the payload carries a
`pull_request` object (in which case a blank login yields a blank name
without failing); when the pusher name is empty and no `pull_request` is
present — the situation of every real push payload — the fallback read
throws and the run is marked failed rather than proceeding with a blank
name. -/
theorem C8_name_fallback :
    (∀ (p : Payload) (pu : Pusher), p.pusher = some pu → pu.name ≠ "" →
        resolvePushUserName p = ⟨[], Except.ok pu.name⟩)
      ∧ (∀ (p : Payload) (pr : PRPayload), p.pusher = some ⟨""⟩ →
          p.pull_request = some pr →
          resolvePushUserName p = ⟨[], Except.ok pr.user.login⟩)
      ∧ (∀ (p : Payload), p.pusher = some ⟨""⟩ → p.pull_request = none →
          (resolvePushUserName p).result
            = Except.error "Cannot read properties of undefined (reading user)")
      ∧ (∀ (rn : String) (pg : Nat → Except String String)
          (gc : String → Except String (List FileChange))
          (ga : String → Except String GenResponse) (mk : String → String)
          (ocs : Option (List PayloadCommit)),
          (run (Env.mk "push" ⟨none, some ⟨""⟩, ocs⟩ rn allInputs pg gc ga mk)).failure
            = some "Cannot read properties of undefined (reading user)") := by
  refine ⟨?_, ?_, ?_, ?_⟩
  · intro p pu hp hn
    unfold resolvePushUserName
    rw [hp]
    have hb : (pu.name == "") = false := beq_eq_false_iff_ne.mpr hn
    simp [require, Out.bind, Out.pure, hb]
  · intro p pr hp hpr
    unfold resolvePushUserName
    rw [hp, hpr]
    rfl
  · intro p hp hpr
    unfold resolvePushUserName
    rw [hp, hpr]
    rfl
  · intro rn pg gc ga mk ocs
    rfl

theorem C8_witness :
    resolvePushUserName ⟨none, some ⟨"bob"⟩, none⟩ = ⟨[], Except.ok "bob"⟩
      ∧ resolvePushUserName ⟨some ⟨7, ⟨"alice"⟩⟩, some ⟨""⟩, none⟩
          = ⟨[], Except.ok "alice"⟩
      ∧ (resolvePushUserName ⟨none, some ⟨""⟩, none⟩).result
          = Except.error "Cannot read properties of undefined (reading user)" := by
  exact ⟨C8_name_fallback.1 ⟨none, some ⟨"bob"⟩, none⟩ ⟨"bob"⟩ rfl (by decide),
    C8_name_fallback.2.1 ⟨some ⟨7, ⟨"alice"⟩⟩, some ⟨""⟩, none⟩ ⟨7, ⟨"alice"⟩⟩ rfl rfl,
    C8_name_fallback.2.2.1 ⟨none, some ⟨""⟩, none⟩ rfl rfl⟩

-- ===== C6 =====

/-- C6: a push event whose payload carries no commits field, or an empty
commits array, short-circuits: whatever the pusher/PR fields and the input
table hold, the run makes no generative-language call, posts no PR comment
and sends no email (the possible effects are the early-return log, or an
early abort before any call). -/
theorem C6_empty_push_short_circuits (inputs : String → String) (opr : Option PRPayload)
    (pu : Option Pusher) (ocs : Option (List PayloadCommit)) (rn : String)
    (pg : Nat → Except String String) (gc : String → Except String (List FileChange))
    (ga : String → Except String GenResponse) (mk : String → String)
    (hc : ocs = none ∨ ocs = some []) :
    madeGenCall (run (Env.mk "push" ⟨opr, pu, ocs⟩ rn inputs pg gc ga mk)) = false
      ∧ sentAnyEmail (run (Env.mk "push" ⟨opr, pu, ocs⟩ rn inputs pg gc ga mk)) = false
      ∧ postedAnyComment (run (Env.mk "push" ⟨opr, pu, ocs⟩ rn inputs pg gc ga mk))
          = false := by
  rcases hc with rfl | rfl <;>
    rcases pu with _ | ⟨⟨pname⟩⟩ <;>
      rcases opr with _ | ⟨pr⟩ <;>
        by_cases t1 : inputs "github-token" == "" <;>
          by_cases t2 : inputs "gemini-api-key" == "" <;>
            first
              | (by_cases hn : pname = "" <;>
                  simp [run, runBody, requiredInput, pushFlow, resolvePushUserName,
                    require, dispatchEmail, Out.bind, Out.pure, emit, throwErr,
                    madeGenCall, sentAnyEmail, postedAnyComment, isGenEff, isEmailEff,
                    isCommentEff, t1, t2, hn])
              | simp [run, runBody, requiredInput, pushFlow, resolvePushUserName,
                  require, dispatchEmail, Out.bind, Out.pure, emit, throwErr,
                  madeGenCall, sentAnyEmail, postedAnyComment, isGenEff, isEmailEff,
                  isCommentEff, t1, t2]

theorem C6_witness :
    madeGenCall (run (Env.mk "push" ⟨none, some ⟨"bob"⟩, some []⟩ "demo" allInputs
          (fun _ => Except.error "e") (fun _ => Except.error "e")
          (fun _ => Except.error "e") (fun s => s))) = false
      ∧ sentAnyEmail (run (Env.mk "push" ⟨none, some ⟨"bob"⟩, some []⟩ "demo" allInputs
          (fun _ => Except.error "e") (fun _ => Except.error "e")
          (fun _ => Except.error "e") (fun s => s))) = false
      ∧ postedAnyComment (run (Env.mk "push" ⟨none, some ⟨"bob"⟩, some []⟩ "demo" allInputs
          (fun _ => Except.error "e") (fun _ => Except.error "e")
          (fun _ => Except.error "e") (fun s => s))) = false := by
  exact C6_empty_push_short_circuits allInputs none (some ⟨"bob"⟩) (some []) "demo"
    (fun _ => Except.error "e") (fun _ => Except.error "e") (fun _ => Except.error "e")
    (fun s => s) (Or.inr rfl)

-- ===== C10 =====

/-- C10: an event that is neither a pull request nor a push completes
successfully with no effect whatsoever — no source-control fetch, no
generative-language call, no PR comment, no email, no log. -/
theorem C10_other_events_noop (env : Env)
    (h1 : env.eventName ≠ "pull_request") (h2 : env.eventName ≠ "push")
    (h3 : env.inputs "github-token" ≠ "") (h4 : env.inputs "gemini-api-key" ≠ "") :
    run env = ⟨[], none⟩ := by
  have e1 : (env.inputs "github-token" == "") = false := beq_eq_false_iff_ne.mpr h3
  have e2 : (env.inputs "gemini-api-key" == "") = false := beq_eq_false_iff_ne.mpr h4
  have e3 : (env.eventName == "pull_request") = false := beq_eq_false_iff_ne.mpr h1
  have e4 : (env.eventName == "push") = false := beq_eq_false_iff_ne.mpr h2
  simp [run, runBody, requiredInput, dispatchEmail, e1, e2, e3, e4, Out.bind, Out.pure,
    truthy]

theorem C10_witness : run envSchedule = ⟨[], none⟩ := by
  exact C10_other_events_noop envSchedule (by decide) (by decide) (by decide) (by decide)

end AICodeReview
